import Mathlib

/-!
Verification development for the per-project WebSocket room (the `UserWebSocket`
durable object in `src/websocket-bridge.ts`), the `Broadcaster` durable object
(`src/broadcaster/broadcaster.ts`), the two front-router worker variants
(`src/index.ts` and the router that performs API-key validation), and the
API-key credential service (`src/api-keys/service.ts`).

The embedding is shallow: each TypeScript function is translated into an
executable Lean function over explicit state.  Sockets are identified by their
client ids; an outbound `socket.send(...)` or `socket.close(...)` is recorded
as an element of an output list.  Wall-clock `Date.now()` is passed in as an
explicit `now : Nat` argument.  JSON (de)serialization is not modelled: inbound
frames arrive as already-parsed structures (`none` standing for a JSON parse
failure), and outbound frames are structured values.  Sends are modelled as
always succeeding, so the `catch` branches around `socket.send` do not appear.
-/

namespace DoWs

/-- Occurrence of `pat` as a contiguous sublist of a character list, by
structural recursion (so that concrete instances reduce in the kernel). -/
def subListOf (pat : List Char) : List Char → Bool
  | [] => pat.isEmpty
  | c :: cs => List.isPrefixOf pat (c :: cs) || subListOf pat cs

/-- Substring test, modelling JavaScript `String.prototype.includes`. -/
def strContains (s pat : String) : Bool :=
  subListOf pat.data s.data

/-- Lower-casing of a string character by character, modelling
`String.prototype.toLowerCase` on the ASCII strings the code handles. -/
def strToLower (s : String) : String :=
  String.mk (s.data.map Char.toLower)

/-- Client roles accepted by the `UserWebSocket` durable object
(`['runtime', 'agent'].includes(clientType)` in `handleWebSocketUpgrade`). -/
inductive ClientType where
  | runtime
  | agent
deriving DecidableEq, Repr

/-- Render a client type the way the source interpolates it into strings. -/
def ClientType.str : ClientType → String
  | .runtime => "runtime"
  | .agent => "agent"

/-- WebSocket readyState values.  The `UserWebSocket` code never reads this
field; it is carried on the model of a connection so that claims that speak
about the state of a socket can be stated. -/
inductive SockState where
  | CONNECTING
  | OPEN
  | CLOSING
  | CLOSED
deriving DecidableEq, Repr

/-- A connection record, from the `Connection` interface in `types.ts`:
`{id, type, socket, connectedAt, projectId, metadata}`.  The socket handle is
identified with the connection id; `sockState` models the handle's readyState
(unread by the room logic, faithful to the source). -/
structure Connection where
  id : String
  type : ClientType
  projectId : String
  connectedAt : Nat
  sockState : SockState := SockState.OPEN
deriving DecidableEq, Repr

/-- One row of the fixture `users` list in `generateDummyData`. -/
structure UserRow where
  id : String
  name : String
  email : String
  role : String
  status : String
deriving DecidableEq, Repr

/-- One row of the fixture `posts` list in `generateDummyData`. -/
structure PostRow where
  id : String
  title : String
  authorName : String
deriving DecidableEq, Repr

/-- The payload returned by `UserWebSocket.generateDummyData`: one of the
`users` object, the `posts` object, or the default fallback object. -/
inductive DummyData where
  | users (rows : List UserRow)
  | posts (rows : List PostRow)
  | fallback (message : String) (query : String) (projectId : String)
deriving DecidableEq, Repr

/-- The fixture payload of `UserWebSocket.generateDummyDocs`, abbreviated to
its scalar fields (the nested table descriptions are constants the claims never
inspect). -/
structure DummyDocs where
  databaseName : String
  version : String
  totalTables : Nat
  totalColumns : Nat
deriving DecidableEq, Repr

/-- The three-entry `users` fixture list from `generateDummyData`. -/
def dummyUsers : List UserRow :=
  [ { id := "1", name := "John Doe", email := "john@example.com", role := "admin", status := "active" },
    { id := "2", name := "Jane Smith", email := "jane@example.com", role := "user", status := "active" },
    { id := "3", name := "Bob Wilson", email := "bob@example.com", role := "user", status := "inactive" } ]

/-- The three-entry `posts` fixture list from `generateDummyData`. -/
def dummyPosts : List PostRow :=
  [ { id := "1", title := "Getting Started with WebSockets", authorName := "John Doe" },
    { id := "2", title := "Durable Objects Explained", authorName := "Jane Smith" },
    { id := "3", title := "Building Real-time Applications", authorName := "Bob Wilson" } ]

/-- Translation of `UserWebSocket.generateDummyData(query, projectId)`:
lowercase the query, then dispatch on substring matches, `users`/`user` first,
then `posts`/`post`, else the default fallback object. -/
def generateDummyData (query : String) (projectId : String) : DummyData :=
  let queryLower := strToLower query
  if strContains queryLower "users" || strContains queryLower "user" then
    DummyData.users dummyUsers
  else if strContains queryLower "posts" || strContains queryLower "post" then
    DummyData.posts dummyPosts
  else
    DummyData.fallback "Dummy data response" query projectId

/-- Translation of `UserWebSocket.generateDummyDocs(projectId)` (scalar
fields; the table bodies are constants). -/
def generateDummyDocs (projectId : String) : DummyDocs :=
  { databaseName := "project_" ++ projectId ++ "_database",
    version := "1.0.0",
    totalTables := 2,
    totalColumns := 11 }

/-- A parsed inbound envelope: the fields of `WebSocketMessage` that the
`UserWebSocket` routing code reads.  `query` models `queryMessage.query` (the
code reads it unconditionally on the `graphql_query` path). -/
structure InMessage where
  type : String
  requestId : Option String := none
  projectId : Option String := none
  runtimeId : Option String := none
  query : String := ""
deriving DecidableEq, Repr

/-- An outbound frame.  `raw m` is an inbound envelope re-serialized verbatim
(as in `agent.socket.send(JSON.stringify(forwardMessage))` and
`this.runtime.socket.send(JSON.stringify(data))`). -/
inductive Frame where
  | connected (clientId : String) (clientType : ClientType) (projectId : String)
      (message : String) (timestamp : Nat)
  | queryResponse (requestId : Option String) (projectId : String)
      (data : DummyData) (timestamp : Nat)
  | docsResponse (requestId : Option String) (projectId : String)
      (data : DummyDocs) (timestamp : Nat)
  | pong (timestamp : Nat)
  | errorFrame (message : String) (requestId : Option String) (projectId : String)
      (timestamp : Nat)
  | raw (original : InMessage)
deriving DecidableEq, Repr

/-- An observable side effect of the room: a `socket.send` to the socket of the
named client, or a `socket.close(code, reason)` on it. -/
inductive Output where
  | send (targetId : String) (frame : Frame)
  | closeSock (targetId : String) (code : Nat) (reason : String)
deriving DecidableEq, Repr

/-- Compact constructor for a connection with an OPEN socket, as minted by the
upgrade path. -/
def mkConn (i : String) (ct : ClientType) (p : String) (t : Nat) : Connection :=
  { id := i, type := ct, projectId := p, connectedAt := t, sockState := SockState.OPEN }

/-- The mutable state of one `UserWebSocket` durable object: the singleton
`runtime` slot, the insertion-ordered `agents` map, the resolved `projectId`,
and `lastActivity`. -/
structure RoomState where
  runtime : Option Connection := none
  agents : List (String × Connection) := []
  projectId : String
  lastActivity : Nat := 0
deriving DecidableEq, Repr

/-- Translation of `UserWebSocket.findConnection`: the runtime if its id
matches, else a lookup in the agents map. -/
def findConnection (st : RoomState) (clientId : String) : Option Connection :=
  match st.runtime with
  | some r => if r.id = clientId then some r else (st.agents.lookup clientId)
  | none => st.agents.lookup clientId

/-- Translation of `UserWebSocket.getAvailableAgent`: the first agent in map
iteration (insertion) order, or `none` when the map is empty. -/
def getAvailableAgent (st : RoomState) : Option Connection :=
  match st.agents with
  | [] => none
  | (_, a) :: _ => some a

/-- Translation of `UserWebSocket.sendError`: skipped entirely when the message
text contains "error" (the loop guard), skipped when the client cannot be
found, otherwise one `error` envelope to the client. -/
def sendError (st : RoomState) (clientId : String) (message : String)
    (requestId : Option String) (now : Nat) : List Output :=
  if strContains (strToLower message) "error" then []
  else
    match findConnection st clientId with
    | none => []
    | some c => [Output.send c.id (Frame.errorFrame message requestId st.projectId now)]

/-- Translation of `UserWebSocket.handlePing`: a `pong` to the sender when the
sender is a known connection, nothing otherwise. -/
def handlePing (st : RoomState) (senderId : String) (now : Nat) : List Output :=
  match findConnection st senderId with
  | none => []
  | some c => [Output.send c.id (Frame.pong now)]

/-- Translation of `UserWebSocket.forwardToDataAgent`: on a `graphql_query`,
pick the first agent; if none, synthesize a `query_response` from
`generateDummyData` and send it to the registered runtime (dropped when the
runtime slot is empty); otherwise forward the envelope with `runtimeId`
annotated to that agent. -/
def forwardToDataAgent (st : RoomState) (runtimeId : String) (m : InMessage)
    (now : Nat) : RoomState × List Output :=
  if m.type ≠ "graphql_query" then (st, [])
  else
    match getAvailableAgent st with
    | none =>
        let dummyData := generateDummyData m.query st.projectId
        let dummyResponse := Frame.queryResponse m.requestId st.projectId dummyData now
        match st.runtime with
        | some r => (st, [Output.send r.id dummyResponse])
        | none => (st, [])
    | some agent =>
        (st, [Output.send agent.id (Frame.raw { m with runtimeId := some runtimeId })])

/-- Translation of `UserWebSocket.forwardGetDocsToAgent`: same shape as
`forwardToDataAgent` with the docs fixture generator. -/
def forwardGetDocsToAgent (st : RoomState) (runtimeId : String) (m : InMessage)
    (now : Nat) : RoomState × List Output :=
  if m.type ≠ "get_docs" then (st, [])
  else
    match getAvailableAgent st with
    | none =>
        let dummyResponse := Frame.docsResponse m.requestId st.projectId
          (generateDummyDocs st.projectId) now
        match st.runtime with
        | some r => (st, [Output.send r.id dummyResponse])
        | none => (st, [])
    | some agent =>
        (st, [Output.send agent.id (Frame.raw { m with runtimeId := some runtimeId })])

/-- Translation of `UserWebSocket.forwardDocsToRuntime`: forward the envelope
verbatim to the registered runtime; drop it when the runtime slot is empty. -/
def forwardDocsToRuntime (st : RoomState) (m : InMessage) : RoomState × List Output :=
  if m.type ≠ "docs" then (st, [])
  else
    match st.runtime with
    | none => (st, [])
    | some r => (st, [Output.send r.id (Frame.raw m)])

/-- Translation of `UserWebSocket.forwardToRuntime`: forward a `query_response`
verbatim to the registered runtime; drop it when the runtime slot is empty.
No pending table exists: neither `requestId` nor the envelope's `runtimeId`
is consulted. -/
def forwardToRuntime (st : RoomState) (m : InMessage) : RoomState × List Output :=
  if m.type ≠ "query_response" then (st, [])
  else
    match st.runtime with
    | none => (st, [])
    | some r => (st, [Output.send r.id (Frame.raw m)])

/-- Translation of `UserWebSocket.handleMessage`.  `parsed = none` models a
JSON parse failure (the `catch (parseError)` branch).  On success,
`lastActivity` is refreshed and the envelope is dispatched on its `type`
string; `error` and unknown types are logged and dropped with no reply
(`handleErrorMessage` / `handleUnknownMessage`). -/
def handleMessage (st : RoomState) (senderId : String) (parsed : Option InMessage)
    (now : Nat) : RoomState × List Output :=
  match parsed with
  | none => (st, sendError st senderId "Invalid JSON message format" none now)
  | some m =>
      let st1 := { st with lastActivity := now }
      if m.type = "graphql_query" then forwardToDataAgent st1 senderId m now
      else if m.type = "get_docs" then forwardGetDocsToAgent st1 senderId m now
      else if m.type = "docs" then forwardDocsToRuntime st1 m
      else if m.type = "query_response" then forwardToRuntime st1 m
      else if m.type = "ping" then (st1, handlePing st1 senderId now)
      else if m.type = "error" then (st1, [])
      else (st1, [])

/-- Translation of `UserWebSocket.handleDisconnection(clientId, clientType)`:
when the type is `runtime` the runtime slot is cleared unconditionally (the
source performs no comparison between `clientId` and the id of the currently
registered runtime); when it is `agent`, `agents.delete(clientId)`. -/
def handleDisconnection (st : RoomState) (clientId : String) (clientType : ClientType)
    (now : Nat) : RoomState :=
  let st1 :=
    match clientType with
    | ClientType.runtime => { st with runtime := none }
    | ClientType.agent => { st with agents := st.agents.filter (fun p => p.1 ≠ clientId) }
  { st1 with lastActivity := now }

/-- Result of `UserWebSocket.handleWebSocketUpgrade`: the new room state, the
socket effects, and the HTTP status of the response. -/
structure UpgradeResult where
  state : RoomState
  outputs : List Output
  status : Nat
deriving DecidableEq, Repr

/-- Translation of `UserWebSocket.handleWebSocketUpgrade`.  Checks the
`Upgrade` header (426), the `type` parameter (400), and the `projectId`
parameter (400 when absent or empty, matching JavaScript falsiness), then the
room's own resolved projectId (500 when still unknown).  On the `runtime` path
an existing runtime connection — whatever the state of its socket — is closed
with code 1000 and replaced; on the `agent` path the connection is appended to
the agents map.  The welcome `connected` envelope is sent and 101 returned. -/
def handleWebSocketUpgrade (st : RoomState) (upgradeHeader typeParam projParam : Option String)
    (newClientId : String) (now : Nat) : UpgradeResult :=
  if upgradeHeader.map strToLower ≠ some "websocket" then
    { state := st, outputs := [], status := 426 }
  else if ¬(typeParam = some "runtime" ∨ typeParam = some "agent") then
    { state := st, outputs := [], status := 400 }
  else if projParam.getD "" = "" then
    { state := st, outputs := [], status := 400 }
  else if st.projectId = "" ∨ st.projectId = "unknown" ∨ st.projectId = "undefined" then
    { state := st, outputs := [], status := 500 }
  else if typeParam = some "runtime" then
    let conn : Connection :=
      { id := newClientId, type := ClientType.runtime, projectId := st.projectId,
        connectedAt := now, sockState := SockState.OPEN }
    let closes :=
      match st.runtime with
      | some old => [Output.closeSock old.id 1000 "New runtime connection"]
      | none => []
    let welcome := Output.send newClientId
      (Frame.connected newClientId ClientType.runtime st.projectId
        ("Connected as runtime for project " ++ st.projectId) now)
    let st2 := { st with runtime := some conn, lastActivity := now }
    { state := st2, outputs := closes ++ [welcome], status := 101 }
  else
    let conn : Connection :=
      { id := newClientId, type := ClientType.agent, projectId := st.projectId,
        connectedAt := now, sockState := SockState.OPEN }
    let welcome := Output.send newClientId
      (Frame.connected newClientId ClientType.agent st.projectId
        ("Connected as agent for project " ++ st.projectId) now)
    let st2 := { st with agents := st.agents ++ [(newClientId, conn)], lastActivity := now }
    { state := st2, outputs := [welcome], status := 101 }

/-- The events the `UserWebSocket` durable object reacts to: an upgrade
request, an inbound frame (with its parse result), a socket close or error
event (both routed to `handleDisconnection`), and the storage alarm firing
(`alarm()`, which only logs). -/
inductive Event where
  | upgradeReq (upgradeHeader typeParam projParam : Option String) (newClientId : String)
  | message (senderId : String) (parsed : Option InMessage)
  | closeEvt (clientId : String) (clientType : ClientType)
  | errorEvt (clientId : String) (clientType : ClientType)
  | alarmFire
deriving DecidableEq, Repr

/-- One step of the room: dispatch an event at wall-clock time `now`. -/
def step (st : RoomState) (e : Event) (now : Nat) : RoomState × List Output :=
  match e with
  | Event.upgradeReq h t p cid =>
      let r := handleWebSocketUpgrade st h t p cid now
      (r.state, r.outputs)
  | Event.message sid m => handleMessage st sid m now
  | Event.closeEvt cid ct => (handleDisconnection st cid ct now, [])
  | Event.errorEvt cid ct => (handleDisconnection st cid ct now, [])
  | Event.alarmFire => (st, [])

/-- Run the room over a timed event list, collecting all outputs in order. -/
def runRoom (st : RoomState) (evs : List (Event × Nat)) : RoomState × List Output :=
  evs.foldl (fun acc ev =>
    let r := step acc.1 ev.1 ev.2
    (r.1, acc.2 ++ r.2)) (st, [])

/-- A client of the `Broadcaster` durable object
(`src/broadcaster/broadcaster.ts`), from the `BroadcastClient` interface. -/
structure BClient where
  id : String
  btype : String
  connectedAt : Nat
deriving DecidableEq, Repr

/-- Frames the `Broadcaster` can emit at upgrade time, plus the
`historical_logs` frame named by the specification so that claims about it can
be stated (the source constructs no such frame). -/
inductive BFrame where
  | connected (clientId : String) (projectId : String) (clientCount : Nat) (timestamp : Nat)
  | errorB (message : String) (projectId : String) (timestamp : Nat)
  | historicalLogs (entries : List String) (count : Nat)
deriving DecidableEq, Repr

/-- The wire `type` field of each `Broadcaster` frame. -/
def BFrame.ftype : BFrame → String
  | BFrame.connected _ _ _ _ => "connected"
  | BFrame.errorB _ _ _ => "error"
  | BFrame.historicalLogs _ _ => "historical_logs"

/-- The state of one `Broadcaster` durable object: the clients map and the
resolved project id. -/
structure BState where
  clients : List (String × BClient) := []
  projectId : String
  lastActivity : Nat := 0
deriving DecidableEq, Repr

/-- Result of `Broadcaster.handleWebSocketUpgrade`. -/
structure BUpgradeResult where
  state : BState
  outputs : List (String × BFrame)
  status : Nat
deriving DecidableEq, Repr

/-- Translation of `Broadcaster.handleWebSocketUpgrade`: check the `Upgrade`
header (426) and the `type` parameter (400 when missing, 400 when not one of
`runtime`, `data-agent`, `admin`), register the client, and send exactly the
welcome `connected` frame, carrying the client count after insertion. -/
def broadcasterUpgrade (st : BState) (upgradeHeader typeParam : Option String)
    (newClientId : String) (now : Nat) : BUpgradeResult :=
  if upgradeHeader.map strToLower ≠ some "websocket" then
    { state := st, outputs := [], status := 426 }
  else
    match typeParam with
    | none => { state := st, outputs := [], status := 400 }
    | some t =>
        if t ≠ "runtime" ∧ t ≠ "data-agent" ∧ t ≠ "admin" then
          { state := st, outputs := [], status := 400 }
        else
          let cl : BClient := { id := newClientId, btype := t, connectedAt := now }
          let st2 := { st with clients := st.clients ++ [(newClientId, cl)], lastActivity := now }
          { state := st2,
            outputs := [(newClientId,
              BFrame.connected newClientId st.projectId st2.clients.length now)],
            status := 101 }

/-- A front-router request: the fields the worker `fetch` handlers read.
`projectId`, `apiKey` and `userId` are query parameters (`apiKey` falling back
to the `x-api-key` header); an empty-string parameter is modelled as `none`,
matching JavaScript falsiness of `""`. -/
structure RouterRequest where
  method : String
  path : String
  projectId : Option String := none
  apiKey : Option String := none
  userId : Option String := none
deriving DecidableEq, Repr

/-- The outcome of a front-router dispatch: a terminal HTTP response produced
by the router itself (status plus a tag naming the branch), a delegation to the
API-key gateway, or forwarding the request to the Room selected by
`idFromName(projectId)`. -/
inductive RouteOutcome where
  | respond (status : Nat) (tag : String)
  | delegateApiKeys
  | forwardToRoom (projectId : String)
deriving DecidableEq, Repr

/-- Translation of `isValidProjectId` in `src/index.ts`:
the regex `^[a-zA-Z0-9_-]{1,64}$`. -/
def isValidProjectId (s : String) : Bool :=
  decide (1 ≤ s.data.length) && decide (s.data.length ≤ 64)
    && s.data.all (fun c => c.isAlphanum || c = '_' || c = '-')

/-- Translation of the worker `fetch` in `src/index.ts` (the variant exporting
`UserWebSocket`): CORS preflight, worker health, missing `projectId` (400),
format check (400), then forward to the Room.  No API-key validation exists in
this variant. -/
def routerFetchA (req : RouterRequest) : RouteOutcome :=
  if req.method = "OPTIONS" then RouteOutcome.respond 204 "cors-preflight"
  else if req.path = "/health" ∧ req.projectId = none then
    RouteOutcome.respond 200 "worker-health"
  else
    match req.projectId with
    | none => RouteOutcome.respond 400 "missing-projectId"
    | some p =>
        if isValidProjectId p then RouteOutcome.forwardToRoom p
        else RouteOutcome.respond 400 "invalid-projectId-format"

/-- Environment of the API-key-validating router variant: whether
`DATABASE_URL` is configured, and the validation verdict the credential store
returns for a `(projectId, apiKey)` pair. -/
structure BridgeEnv where
  databaseConfigured : Bool
  keyValid : String → String → Bool

/-- Translation of the worker `fetch` of the router variant that exports
`Broadcaster` and calls `validateApiKey` (the API-key-validating front
router): worker health, `/api-keys` delegation, missing `projectId` (400),
then — only when an `apiKey` was supplied and the project is not in the bypass
set `demo`/`demo-prod` — key validation (500 when the database is not
configured, 403 on an invalid key), and otherwise forwarding to the Room.
No `projectId` format validation and no `OPTIONS` handling exist in this
variant. -/
def routerFetchB (env : BridgeEnv) (req : RouterRequest) : RouteOutcome :=
  if req.path = "/health" ∧ req.projectId = none ∧ req.userId = none then
    RouteOutcome.respond 200 "worker-health"
  else if List.isPrefixOf "/api-keys".data req.path.data then RouteOutcome.delegateApiKeys
  else
    match req.projectId with
    | none => RouteOutcome.respond 400 "missing-projectId"
    | some p =>
        match req.apiKey with
        | none => RouteOutcome.forwardToRoom p
        | some k =>
            if p = "demo" ∨ p = "demo-prod" then RouteOutcome.forwardToRoom p
            else if env.databaseConfigured = false then
              RouteOutcome.respond 500 "db-not-configured"
            else if env.keyValid p k then RouteOutcome.forwardToRoom p
            else RouteOutcome.respond 403 "invalid-api-key"

/-- One row of the `api_keys` table (`src/db/schema.sql`), restricted to the
columns the service functions read and write. -/
structure ApiKeyRow where
  projectId : String
  keyHash : String
  keyPref : String
  isActive : Bool
  createdBy : Option String := none
  description : Option String := none
deriving DecidableEq, Repr

/-- Translation of `getKeyPrefix` in `src/api-keys/service.ts`:
`apiKey.substring(0, 12)`. -/
def apiKeyPref (apiKey : String) : String :=
  String.mk (apiKey.data.take 12)

/-- Translation of `generateApiKey` with the 16 random bytes abstracted into
their hex rendering: the produced key is `sa_live_` followed by that hex
string. -/
def generateApiKeyFrom (randomHex : String) : String :=
  "sa_live_" ++ randomHex

/-- Translation of `createApiKey` in `src/api-keys/service.ts` over a list
model of the `api_keys` table.  The `SELECT ... WHERE project_id = $1 AND
is_active = true` runs first; when it returns any row the function throws the
duplicate-active-key error and no `INSERT` happens.  Otherwise the `INSERT`
runs against a table whose `project_id` column is declared `UNIQUE` in
`src/db/schema.sql`: when any row for the project is present — active or not —
the database rejects the insert and `executeQuery` throws a
`Database query failed` error (the exact constraint-violation text of the
database is abbreviated).  Only on a project with no row at all is the new row
appended, with `is_active` defaulting to `true` (schema default), and the
plaintext key returned.  `hashFn` abstracts SHA-256; `newKey` abstracts the
freshly generated key. -/
def createApiKey (store : List ApiKeyRow) (hashFn : String → String)
    (projectId : String) (newKey : String) (createdBy description : Option String) :
    Except String (List ApiKeyRow × String) :=
  let existing := store.filter (fun r => r.projectId == projectId && r.isActive)
  if 0 < existing.length then
    Except.error ("Project " ++ projectId ++
      " already has an active API key. Revoke it first to create a new one.")
  else if 0 < (store.filter (fun r => r.projectId == projectId)).length then
    Except.error "Database query failed: duplicate key value violates unique constraint on project_id"
  else
    let row : ApiKeyRow :=
      { projectId := projectId, keyHash := hashFn newKey, keyPref := apiKeyPref newKey,
        isActive := true, createdBy := createdBy, description := description }
    Except.ok (store ++ [row], newKey)

/-- Translation of `revokeApiKey` in `src/api-keys/service.ts`:
`UPDATE api_keys SET is_active = false WHERE project_id = $1 AND is_active =
true RETURNING id`; the boolean reports whether any row was updated. -/
def revokeApiKey (store : List ApiKeyRow) (projectId : String) :
    List ApiKeyRow × Bool :=
  let touched := store.filter (fun r => r.projectId == projectId && r.isActive)
  (store.map (fun r =>
      if r.projectId == projectId && r.isActive then { r with isActive := false } else r),
    0 < touched.length)

/-- Whether an output is a send of an `error` envelope carrying the timeout
message named by the specification. -/
def isTimeoutErrOut : Output → Bool
  | Output.send _ (Frame.errorFrame msg _ _ _) => msg == "timeout after 30000ms"
  | _ => false

/-- Fixture: a room whose registered runtime is the OPEN connection `r1`. -/
def c1Before : RoomState :=
  { runtime := some (mkConn "r1" ClientType.runtime "P" 0), agents := [],
    projectId := "P", lastActivity := 0 }

/-- Fixture: `c1Before` after a second runtime upgrade replaced `r1` by `r2`. -/
def c1After : RoomState :=
  { runtime := some (mkConn "r2" ClientType.runtime "P" 10), agents := [],
    projectId := "P", lastActivity := 10 }

/-- Fixture: a `query_response` whose `runtimeId` annotation names the stale
runtime `r1` and whose `requestId` was never registered anywhere. -/
def c2qr : InMessage :=
  { type := "query_response", requestId := some "q1", projectId := some "P",
    runtimeId := some "r1" }

/-- Fixture: a room whose current runtime is `r2` (different from the `r1`
named in `c2qr`) with one agent `a1`. -/
def c2State : RoomState :=
  { runtime := some (mkConn "r2" ClientType.runtime "P" 9),
    agents := [("a1", mkConn "a1" ClientType.agent "P" 1)],
    projectId := "P", lastActivity := 9 }

/-- Fixture: a `graphql_query` frame with `requestId` `q1`. -/
def c3q : InMessage :=
  { type := "graphql_query", requestId := some "q1", projectId := some "P", query := "hello" }

/-- Fixture: `c3q` as forwarded to the agent, with the `runtimeId` of the
sending runtime annotated. -/
def c3qAnnotated : InMessage :=
  { type := "graphql_query", requestId := some "q1", projectId := some "P",
    query := "hello", runtimeId := some "r0" }

/-- Fixture: runtime `r0` and agent `a0` connect, `r0` issues `c3q` at time
1000, the agent never replies, and the next activity is the alarm firing after
the 30-second mark. -/
def c3trace : List (Event × Nat) :=
  [(Event.upgradeReq (some "websocket") (some "runtime") (some "P") "r0", 0),
   (Event.upgradeReq (some "websocket") (some "agent") (some "P") "a0", 1),
   (Event.message "r0" (some c3q), 1000),
   (Event.alarmFire, 31000)]

/-- Fixture: an empty room for project `P`. -/
def c3start : RoomState :=
  { runtime := none, agents := [], projectId := "P", lastActivity := 0 }

/-- Fixture: a room with a registered runtime `r0` and no agents. -/
def c4State : RoomState :=
  { runtime := some (mkConn "r0" ClientType.runtime "P" 0), agents := [],
    projectId := "P", lastActivity := 0 }

/-- Fixture: a `graphql_query` whose query text contains `users`. -/
def c4Query : InMessage :=
  { type := "graphql_query", requestId := some "q2", projectId := some "P",
    query := "users list" }

/-- Fixture: an empty `Broadcaster` for project `P`. -/
def c6start : BState := { clients := [], projectId := "P", lastActivity := 0 }

/-- Fixture: a router environment with a configured database whose key
validation rejects every key. -/
def envNoKey : BridgeEnv := { databaseConfigured := true, keyValid := fun _ _ => false }

/-- Fixture: a request whose `projectId` violates the id regex. -/
def reqBadId : RouterRequest :=
  { method := "GET", path := "/websocket", projectId := some "bad id!",
    apiKey := none, userId := none }

/-- Fixture: a request carrying an api key for a well-formed project id. -/
def reqWithKey : RouterRequest :=
  { method := "GET", path := "/websocket", projectId := some "ok-project",
    apiKey := some "sa_live_deadbeef", userId := none }

/-- Fixture: a request for project `proj-x` carrying an api key. -/
def reqKeyedX : RouterRequest :=
  { method := "GET", path := "/websocket", projectId := some "proj-x",
    apiKey := some "sa_live_00", userId := none }

/-- Fixture: one active `api_keys` row for project `proj-x`. -/
def c8Row : ApiKeyRow :=
  { projectId := "proj-x", keyHash := "h0", keyPref := "sa_live_0000", isActive := true,
    createdBy := none, description := none }

/-- Fixture: the `proj-x` row after `revokeApiKey` flipped `is_active` to
false; the row itself stays in the table. -/
def c8RowRevoked : ApiKeyRow :=
  { projectId := "proj-x", keyHash := "h0", keyPref := "sa_live_0000", isActive := false,
    createdBy := none, description := none }

/-- Claim C1, counterexample: with an existing runtime `r1` whose socket is
OPEN, a new runtime upgrade is NOT rejected — the response status is 101, not
409, the old socket is closed with code 1000 (not 1008), and the registered
runtime changes to the new connection, contradicting the claimed rejection. -/
theorem c1_counterexample :
    handleWebSocketUpgrade c1Before (some "websocket") (some "runtime") (some "P") "r2" 10 =
      { state := c1After,
        outputs := [Output.closeSock "r1" 1000 "New runtime connection",
          Output.send "r2" (Frame.connected "r2" ClientType.runtime "P"
            "Connected as runtime for project P" 10)],
        status := 101 } ∧
    (handleWebSocketUpgrade c1Before (some "websocket") (some "runtime") (some "P") "r2" 10).status ≠ 409 := by
  decide

/-- Claim C1, amended: whenever a runtime connection is registered — whatever
the state of its socket — a valid runtime upgrade replaces it: the old socket
is closed with code 1000 and reason `New runtime connection`, the new
connection becomes the registered runtime, the welcome frame is sent, and the
HTTP status is 101. -/
theorem c1_replacement (st : RoomState) (old : Connection) (p cid : String) (now : Nat)
    (hrt : st.runtime = some old) (hp : p ≠ "")
    (hpid : ¬(st.projectId = "" ∨ st.projectId = "unknown" ∨ st.projectId = "undefined")) :
    handleWebSocketUpgrade st (some "websocket") (some "runtime") (some p) cid now =
      { state := { st with runtime := some (mkConn cid ClientType.runtime st.projectId now), lastActivity := now },
        outputs := [Output.closeSock old.id 1000 "New runtime connection",
          Output.send cid (Frame.connected cid ClientType.runtime st.projectId
            ("Connected as runtime for project " ++ st.projectId) now)],
        status := 101 } := by
  unfold handleWebSocketUpgrade
  rw [if_neg (by decide), if_neg (by decide)]
  rw [show (some p).getD "" = p from rfl, if_neg hp, if_neg hpid, if_pos rfl, hrt]
  rfl

/-- Claim C1, witness: `c1_replacement` evaluated on the concrete room
`c1Before`. -/
theorem c1_replacement_witness :
    handleWebSocketUpgrade c1Before (some "websocket") (some "runtime") (some "P") "r2" 10 =
      { state := c1After,
        outputs := [Output.closeSock "r1" 1000 "New runtime connection",
          Output.send "r2" (Frame.connected "r2" ClientType.runtime "P"
            "Connected as runtime for project P" 10)],
        status := 101 } :=
  c1_replacement c1Before (mkConn "r1" ClientType.runtime "P" 0) "P" "r2" 10 rfl
    (by decide) (by decide)

/-- Claim C2, counterexample: a `query_response` whose `requestId` was never
registered and whose `runtimeId` names the stale runtime `r1` is NOT dropped —
it is forwarded verbatim to the new current runtime `r2`, contradicting both
drop clauses of the claim. -/
theorem c2_counterexample :
    (handleMessage c2State "a1" (some c2qr) 20).2 = [Output.send "r2" (Frame.raw c2qr)] ∧
    (handleMessage c2State "a1" (some c2qr) 20).2 ≠ [] := by
  decide

/-- Claim C2, amended: the room keeps no pending table; an inbound
`query_response` is dropped exactly when no runtime is registered, and
otherwise forwarded verbatim to the currently registered runtime, regardless
of its `requestId` or `runtimeId` fields. -/
theorem c2_forwarding (st : RoomState) (senderId : String) (m : InMessage) (now : Nat)
    (ht : m.type = "query_response") :
    ((st.runtime = none → (handleMessage st senderId (some m) now).2 = []) ∧
     (∀ r, st.runtime = some r →
        (handleMessage st senderId (some m) now).2 = [Output.send r.id (Frame.raw m)])) := by
  constructor
  · intro h
    simp +decide [handleMessage, forwardToRuntime, ht, h]
  · intro r h
    simp +decide [handleMessage, forwardToRuntime, ht, h]

/-- Claim C2, witness: `c2_forwarding` evaluated on the concrete room
`c2State` and response `c2qr`. -/
theorem c2_forwarding_witness :
    (handleMessage c2State "a1" (some c2qr) 20).2 = [Output.send "r2" (Frame.raw c2qr)] :=
  (c2_forwarding c2State "a1" c2qr 20 rfl).2 (mkConn "r2" ClientType.runtime "P" 9) rfl

/-- Claim C3, counterexample: in the concrete run where a `graphql_query` is
forwarded to agent `a0` (first conjunct) and no reply ever arrives, no event —
including the alarm firing after the 30-second mark — produces an `error`
envelope with message `timeout after 30000ms`; the claimed timeout behaviour
does not exist. -/
theorem c3_counterexample :
    Output.send "a0" (Frame.raw c3qAnnotated) ∈ (runRoom c3start c3trace).2 ∧
    ((runRoom c3start c3trace).2.all fun o => !(isTimeoutErrOut o)) = true := by
  decide

/-- Claim C3, amended: the code has no pending table and no request timer at
all; no event in any state ever makes the room emit an `error` envelope with
message `timeout after 30000ms`. -/
theorem c3_no_timeout (st : RoomState) (e : Event) (now : Nat) :
    ((step st e now).2.all fun o => !(isTimeoutErrOut o)) = true := by
  cases e with
  | upgradeReq h t p cid =>
      simp only [step]
      unfold handleWebSocketUpgrade
      repeat' split
      all_goals rfl
  | message sid m =>
      simp only [step]
      cases m with
      | none =>
          simp only [handleMessage]
          unfold sendError
          repeat' split
          all_goals rfl
      | some msg =>
          simp only [handleMessage]
          unfold forwardToDataAgent forwardGetDocsToAgent forwardDocsToRuntime forwardToRuntime handlePing
          repeat' split
          all_goals rfl
  | closeEvt cid ct => rfl
  | errorEvt cid ct => rfl
  | alarmFire => rfl

/-- Claim C4: a `graphql_query` arriving from the registered runtime while no
agent is connected is answered by exactly one synthesized `query_response` to
that runtime, carrying the same `requestId`, the projectId of the room, and
the deterministic fixture payload; when the query text contains `users` the
payload is the fixture `users` list with three entries. -/
theorem c4_fixture_response (st : RoomState) (r : Connection) (m : InMessage) (now : Nat)
    (hag : st.agents = []) (hrt : st.runtime = some r) (ht : m.type = "graphql_query") :
    (handleMessage st r.id (some m) now).2 =
      [Output.send r.id (Frame.queryResponse m.requestId st.projectId
        (generateDummyData m.query st.projectId) now)] ∧
    (strContains (strToLower m.query) "users" = true →
      generateDummyData m.query st.projectId = DummyData.users dummyUsers ∧
      dummyUsers.length = 3) := by
  constructor
  · simp +decide [handleMessage, forwardToDataAgent, getAvailableAgent, ht, hag, hrt]
  · intro h
    refine ⟨?_, rfl⟩
    simp [generateDummyData, h]

/-- Claim C4, witness: `c4_fixture_response` evaluated on the concrete room
`c4State` and query `c4Query` containing `users`. -/
theorem c4_witness :
    (handleMessage c4State "r0" (some c4Query) 2000).2 =
      [Output.send "r0" (Frame.queryResponse (some "q2") "P"
        (generateDummyData "users list" "P") 2000)] ∧
    generateDummyData "users list" "P" = DummyData.users dummyUsers ∧
    dummyUsers.length = 3 := by
  have h := c4_fixture_response c4State (mkConn "r0" ClientType.runtime "P" 0) c4Query 2000 rfl rfl rfl
  exact ⟨h.1, h.2 (by decide)⟩

/-- Claim C5: evaluation at the failing input.  Runtime `r1` connects and is
replaced by `r2` (first conjunct: `r2` is then the registered runtime; third
conjunct: the replacement closed the socket of `r1`).  When the close event of
the replaced connection `r1` is then processed, `handleDisconnection` clears
the runtime slot unconditionally, leaving NO registered runtime — the current
runtime `r2` is lost, contrary to the claim (and to the intent of the
replacement logic). -/
theorem c5_stale_close_clears_new_runtime :
    (runRoom c3start
        [(Event.upgradeReq (some "websocket") (some "runtime") (some "P") "r1", 0),
         (Event.upgradeReq (some "websocket") (some "runtime") (some "P") "r2", 10)]).1.runtime =
      some (mkConn "r2" ClientType.runtime "P" 10) ∧
    (runRoom c3start
        [(Event.upgradeReq (some "websocket") (some "runtime") (some "P") "r1", 0),
         (Event.upgradeReq (some "websocket") (some "runtime") (some "P") "r2", 10),
         (Event.closeEvt "r1" ClientType.runtime, 11)]).1.runtime = none ∧
    Output.closeSock "r1" 1000 "New runtime connection" ∈
      (runRoom c3start
        [(Event.upgradeReq (some "websocket") (some "runtime") (some "P") "r1", 0),
         (Event.upgradeReq (some "websocket") (some "runtime") (some "P") "r2", 10),
         (Event.closeEvt "r1" ClientType.runtime, 11)]).2 := by
  decide

/-- Claim C6, counterexample: admitting an admin client makes the Broadcaster
send exactly the `connected` welcome frame; the number of `historical_logs`
frames delivered is zero, not one — no log replay exists. -/
theorem c6_counterexample :
    (broadcasterUpgrade c6start (some "websocket") (some "admin") "ad0" 7).outputs =
      [("ad0", BFrame.connected "ad0" "P" 1 7)] ∧
    ((broadcasterUpgrade c6start (some "websocket") (some "admin") "ad0" 7).outputs.filter
      (fun pr => pr.2.ftype == "historical_logs")).length = 0 := by
  decide

/-- Claim C6, amended: on every admin admission the Broadcaster delivers
exactly one frame to the new client — the `connected` welcome carrying the
client count — and none of the delivered frames is a `historical_logs`
frame (the code has no log bucket store). -/
theorem c6_admin_welcome_only (st : BState) (cid : String) (now : Nat) :
    (broadcasterUpgrade st (some "websocket") (some "admin") cid now).outputs =
      [(cid, BFrame.connected cid st.projectId (st.clients.length + 1) now)] ∧
    ((broadcasterUpgrade st (some "websocket") (some "admin") cid now).outputs.all
      fun pr => !(pr.2.ftype == "historical_logs")) = true := by
  have hout : (broadcasterUpgrade st (some "websocket") (some "admin") cid now).outputs =
      [(cid, BFrame.connected cid st.projectId
        ((st.clients ++ [(cid, ({ id := cid, btype := "admin", connectedAt := now } : BClient))]).length) now)] := rfl
  constructor
  · rw [hout]; simp
  · rw [hout]; simp +decide [BFrame.ftype]

/-- Claim C7, counterexample: the key-validating router variant forwards a
request whose `projectId` fails the id regex instead of returning 400, and the
regex-validating variant forwards a request carrying an api key without any
key validation instead of returning 403. -/
theorem c7_counterexample :
    isValidProjectId "bad id!" = false ∧
    routerFetchB envNoKey reqBadId = RouteOutcome.forwardToRoom "bad id!" ∧
    routerFetchA reqWithKey = RouteOutcome.forwardToRoom "ok-project" := by
  decide

/-- Claim C7, amended: the repository has two front-router variants and the
claimed checks are split between them.  Variant A (`src/index.ts`) returns 400
on a missing `projectId`, 400 on a regex violation, forwards otherwise, and
ignores any supplied api key.  Variant B (the key-validating router) returns
400 on a missing `projectId`, forwards without any format check when no key is
supplied, and — when a key is supplied for a project outside the bypass set
with the database configured — returns 403 exactly when validation fails. -/
theorem c7_amended (p k : String) (env : BridgeEnv) :
    routerFetchA { method := "GET", path := "/websocket", projectId := none, apiKey := none, userId := none } =
      RouteOutcome.respond 400 "missing-projectId" ∧
    routerFetchB env { method := "GET", path := "/websocket", projectId := none, apiKey := none, userId := none } =
      RouteOutcome.respond 400 "missing-projectId" ∧
    (isValidProjectId p = false →
      routerFetchA { method := "GET", path := "/websocket", projectId := some p, apiKey := none, userId := none } =
        RouteOutcome.respond 400 "invalid-projectId-format") ∧
    (isValidProjectId p = true →
      routerFetchA { method := "GET", path := "/websocket", projectId := some p, apiKey := none, userId := none } =
        RouteOutcome.forwardToRoom p) ∧
    routerFetchA { method := "GET", path := "/websocket", projectId := some p, apiKey := some k, userId := none } =
      routerFetchA { method := "GET", path := "/websocket", projectId := some p, apiKey := none, userId := none } ∧
    routerFetchB env { method := "GET", path := "/websocket", projectId := some p, apiKey := none, userId := none } =
      RouteOutcome.forwardToRoom p ∧
    (p ≠ "demo" → p ≠ "demo-prod" → env.databaseConfigured = true → env.keyValid p k = false →
      routerFetchB env { method := "GET", path := "/websocket", projectId := some p, apiKey := some k, userId := none } =
        RouteOutcome.respond 403 "invalid-api-key") := by
  refine ⟨by decide, ?_, ?_, ?_, rfl, ?_, ?_⟩
  · simp +decide [routerFetchB]
  · intro h; simp +decide [routerFetchA, h]
  · intro h; simp +decide [routerFetchA, h]
  · simp +decide [routerFetchB]
  · intro h1 h2 hdb hk
    simp +decide [routerFetchB, h1, h2, hdb, hk]

/-- Claim C7, witness: `c7_amended` evaluated on a regex-violating id against
variant A and on a rejected key against variant B. -/
theorem c7_witness :
    routerFetchA reqBadId = RouteOutcome.respond 400 "invalid-projectId-format" ∧
    routerFetchB envNoKey reqKeyedX = RouteOutcome.respond 403 "invalid-api-key" := by
  constructor
  · exact (c7_amended "bad id!" "k" envNoKey).2.2.1 (by decide)
  · exact (c7_amended "proj-x" "sa_live_00" envNoKey).2.2.2.2.2.2 (by decide) (by decide) rfl rfl

/-- Claim C8: evaluation at the failing input.  The duplicate-rejection half
of the claim holds: with an active row for `proj-x` present, `createApiKey`
fails with the duplicate-active-key error before any insert (first conjunct).
`revokeApiKey` then only flips `is_active` to false, leaving the `proj-x` row
in the table (second conjunct).  Because `project_id` is declared UNIQUE in
`schema.sql`, the subsequent `createApiKey` — which the claim, the
specification and the error text of the function itself (`Revoke it first to
create a new one.`) expect to succeed — has its INSERT rejected by the
database and fails instead of returning a new plaintext key (third
conjunct). -/
theorem c8_revoke_then_create_fails :
    createApiKey [c8Row] (fun s => s) "proj-x" "sa_live_k1" none none =
      Except.error "Project proj-x already has an active API key. Revoke it first to create a new one." ∧
    (revokeApiKey [c8Row] "proj-x").1 = [c8RowRevoked] ∧
    createApiKey (revokeApiKey [c8Row] "proj-x").1 (fun s => s) "proj-x" "sa_live_k2" none none =
      Except.error "Database query failed: duplicate key value violates unique constraint on project_id" :=
  ⟨rfl, rfl, rfl⟩

/-- Claim C9: processing an inbound envelope whose type is `error`, or whose
type is outside the dispatch table, emits no frame at all — in particular no
`error` envelope is echoed back to the sender, in every state. -/
theorem c9_no_echo (st : RoomState) (senderId : String) (m : InMessage) (now : Nat)
    (h : m.type = "error" ∨
      m.type ∉ ["graphql_query", "get_docs", "docs", "query_response", "ping", "error"]) :
    (handleMessage st senderId (some m) now).2 = [] := by
  rcases h with h | h
  · simp +decide [handleMessage, h]
  · simp only [List.mem_cons, List.not_mem_nil, or_false, not_or] at h
    obtain ⟨h1, h2, h3, h4, h5, h6⟩ := h
    simp +decide [handleMessage, h1, h2, h3, h4, h5, h6]

/-- Claim C9, witness: `c9_no_echo` evaluated on an inbound `error` envelope
and on an unknown type, in the concrete room `c2State`. -/
theorem c9_no_echo_witness :
    (handleMessage c2State "a1" (some { type := "error" }) 21).2 = [] ∧
    (handleMessage c2State "a1" (some { type := "bogus_type" }) 22).2 = [] :=
  ⟨c9_no_echo c2State "a1" { type := "error" } 21 (Or.inl rfl),
   c9_no_echo c2State "a1" { type := "bogus_type" } 22 (Or.inr (by decide))⟩

/-- Claim C10: a `graphql_query` or `get_docs` arriving while no agent is
connected and the runtime slot is empty produces no outbound frame at all —
the synthesized fallback is addressed to the registered runtime and silently
discarded, and no error envelope goes to the sender. -/
theorem c10_silent_drop (st : RoomState) (senderId : String) (m : InMessage) (now : Nat)
    (hrt : st.runtime = none) (hag : st.agents = [])
    (h : m.type = "graphql_query" ∨ m.type = "get_docs") :
    (handleMessage st senderId (some m) now).2 = [] := by
  rcases h with h | h
  · simp +decide [handleMessage, forwardToDataAgent, getAvailableAgent, h, hrt, hag]
  · simp +decide [handleMessage, forwardGetDocsToAgent, getAvailableAgent, h, hrt, hag]

/-- Claim C10, witness: `c10_silent_drop` evaluated on an empty room and a
concrete `graphql_query`. -/
theorem c10_silent_drop_witness :
    (handleMessage c3start "x1" (some { type := "graphql_query", requestId := some "q9", query := "users" }) 30).2 = [] :=
  c10_silent_drop c3start "x1" { type := "graphql_query", requestId := some "q9", query := "users" }
    30 rfl rfl (Or.inl rfl)

end DoWs
